import Mathlib

/-
Shallow embedding of the Book API (Express + lowdb router in
src/unnamed/part_000, bootstrap in src/index.js).

A book record / request body is a JavaScript object whose fields are
string-valued; we model it as a key-ordered association list with unique
keys (`Obj`, well-formedness `ObjWF`).  The lowdb collection is a list of
such objects held both in memory and in the backing file (`DbState`); each
mutating route does an in-memory mutation followed by a whole-file write.
Route handlers become pure functions from the state and the request data to
a `Response` and a successor state.  The nanoid generator and the
possibility of a write failure are nondeterminism external to the source,
so they enter the handlers as explicit parameters (`gen`, `writeOk`).
-/

namespace BookAPI

/-- A JSON object with string-valued fields, as an ordered association list.
JavaScript objects have unique keys; `ObjWF` states that. -/
abbrev Obj := List (String × String)

/-- Well-formedness of an object: no duplicate keys (true of any value
produced by JSON body parsing). -/
def ObjWF (o : Obj) : Prop := (o.map Prod.fst).Nodup

instance : DecidablePred ObjWF := fun o => by
  unfold ObjWF
  infer_instance

/-- Field lookup `o[k]` on a JavaScript object: the value at key `k`,
or `none` when the property is absent. -/
def getField : Obj → String → Option String
  | [], _ => none
  | (k', v') :: rest, k => if k' = k then some v' else getField rest k

/-- Property assignment `o[k] = v`: overwrite the value at an existing key
in place, or append a fresh key at the end. -/
def setField : Obj → String → String → Obj
  | [], k, v => [(k, v)]
  | (k', v') :: rest, k, v =>
    if k' = k then (k, v) :: rest else (k', v') :: setField rest k v

/-- `Object.assign(dst, src)` / lodash `assign`, also the semantics of a
spread `...src` after the fields of `dst`: every field of `src` is copied
into `dst`, overwriting existing keys. -/
def assignObj (dst : Obj) (src : Obj) : Obj :=
  src.foldl (fun acc kv => setField acc kv.1 kv.2) dst

/-- `const idLength = 5` (src/unnamed/part_000:5). -/
def idLength : Nat := 5

/-- The object literal of `router.post` (src/unnamed/part_000:114-117):
`\x7b id: nanoid(idLength), ...req.body \x7d`.  The spread comes after the
generated id, so a body field named `id` overrides it. -/
def mkBook (gen : String) (body : Obj) : Obj :=
  assignObj [("id", gen)] body

/-- The lodash `_.matches` shorthand used by `find(...)` and `remove(...)`:
does the record's `id` field equal the path parameter `i`? -/
def hasId (o : Obj) (i : String) : Bool := getField o "id" == some i

/-- `db.get("books").find(\x7b id: i \x7d).value()`: the first record whose
`id` equals `i`, if any. -/
def findBook (books : List Obj) (i : String) : Option Obj :=
  books.find? (fun o => hasId o i)

/-- Number of records whose `id` equals `i`. -/
def countId (books : List Obj) (i : String) : Nat :=
  (books.filter (fun o => hasId o i)).length

/-- `db.get("books").remove(\x7b id: i \x7d)`: lodash `remove` deletes every
matching record in place and returns the array of removed records.  First
component: the remaining collection; second: the removed records. -/
def removeBooks (books : List Obj) (i : String) : List Obj × List Obj :=
  (books.filter (fun o => !(hasId o i)), books.filter (fun o => hasId o i))

/-- The in-place mutation done by `find(\x7b id: i \x7b).assign(body)`:
the first record whose `id` equals `i` is merged with `body`; the rest of
the collection is untouched. -/
def updateFirst : List Obj → String → Obj → List Obj
  | [], _, _ => []
  | o :: rest, i, body =>
    if hasId o i then assignObj o body :: rest
    else o :: updateFirst rest i body

/-- The lowdb state: the in-memory collection and the contents of the
backing file `db.json`.  `write()` copies the former over the latter. -/
structure DbState where
  mem : List Obj
  file : List Obj
deriving DecidableEq, Repr

/-- A response body: a single record (`res.send(book)`), the whole array
(`res.send(books)`), no JSON body (`res.sendStatus`), or the caught error
detail (`res.status(500).send(error)`). -/
inductive RBody
  | obj : Obj → RBody
  | arr : List Obj → RBody
  | empty : RBody
  | err : String → RBody
deriving DecidableEq, Repr

/-- An HTTP response: status code and body. -/
structure Response where
  status : Nat
  body : RBody
deriving DecidableEq, Repr

/-- `router.get("/")` (src/unnamed/part_000:49-53): send the whole
collection; no mutation. -/
def getAllH (s : DbState) : Response × DbState :=
  (⟨200, .arr s.mem⟩, s)

/-- `router.get("/:id")` (src/unnamed/part_000:79-87): 404 when no record
matches, otherwise 200 with the record; no mutation. -/
def getByIdH (s : DbState) (i : String) : Response × DbState :=
  match findBook s.mem i with
  | none => (⟨404, .empty⟩, s)
  | some b => (⟨200, .obj b⟩, s)

/-- `router.post("/")` (src/unnamed/part_000:112-125): build
`\x7b id: gen, ...body \x7d`, push it, write the file, answer 201 with the
record; a failing write throws after the in-memory push, and the catch
answers 500 carrying the error, leaving the file as it was.
`gen` stands for the `nanoid(idLength)` call, `e` for the caught error. -/
def postH (s : DbState) (gen : String) (body : Obj) (writeOk : Bool)
    (e : String) : Response × DbState :=
  let book := mkBook gen body
  let mem' := s.mem ++ [book]
  if writeOk then (⟨201, .obj book⟩, ⟨mem', mem'⟩)
  else (⟨500, .err e⟩, ⟨mem', s.file⟩)

/-- `router.put("/:id")` (src/unnamed/part_000:159-172): 404 when no record
matches; otherwise `assign` merges the body over the first matching record
in place and `write()` persists; the response carries the merged record.
A failing write throws after the in-memory merge and the catch answers 500
carrying the error, leaving the file as it was. -/
def putH (s : DbState) (i : String) (body : Obj) (writeOk : Bool)
    (e : String) : Response × DbState :=
  match findBook s.mem i with
  | none => (⟨404, .empty⟩, s)
  | some b =>
    let mem' := updateFirst s.mem i body
    if writeOk then (⟨200, .obj (assignObj b body)⟩, ⟨mem', mem'⟩)
    else (⟨500, .err e⟩, ⟨mem', s.file⟩)

/-- Result of the delete route: the response, the successor state, and the
length of the array returned by `remove(...)` (how many records were
removed), which the handler tests against 0. -/
structure DeleteOut where
  resp : Response
  state : DbState
  removedCount : Nat
deriving DecidableEq, Repr

/-- `router.delete("/:id")` (src/unnamed/part_000:198-206): remove every
matching record, write the file, then answer 404 when nothing was removed
and 200 otherwise. -/
def deleteH (s : DbState) (i : String) : DeleteOut :=
  let remaining := (removeBooks s.mem i).1
  let removed := (removeBooks s.mem i).2
  let s' : DbState := ⟨remaining, remaining⟩
  if removed.length = 0 then ⟨⟨404, .empty⟩, s', removed.length⟩
  else ⟨⟨200, .empty⟩, s', removed.length⟩

theorem assignObj_nil (o : Obj) : assignObj o [] = o := rfl

theorem assignObj_cons (o : Obj) (kv : String × String) (rest : Obj) :
    assignObj o (kv :: rest) = assignObj (setField o kv.1 kv.2) rest := rfl

theorem getField_setField_same (o : Obj) (k v : String) :
    getField (setField o k v) k = some v := by
  induction o with
  | nil => simp [setField, getField]
  | cons kv rest ih =>
    obtain ⟨k', v'⟩ := kv
    by_cases h : k' = k
    · simp [setField, getField, h]
    · simp [setField, getField, h, ih]

theorem getField_setField_ne (o : Obj) (k v k1 : String) (h : k1 ≠ k) :
    getField (setField o k v) k1 = getField o k1 := by
  induction o with
  | nil => simp [setField, getField, Ne.symm h]
  | cons kv rest ih =>
    obtain ⟨k', v'⟩ := kv
    by_cases h' : k' = k
    · subst h'
      simp [setField, getField, Ne.symm h]
    · simp [setField, getField, h', ih]

theorem getField_eq_none_iff (o : Obj) (k : String) :
    getField o k = none ↔ k ∉ o.map Prod.fst := by
  induction o with
  | nil => simp [getField]
  | cons kv rest ih =>
    obtain ⟨k1, v1⟩ := kv
    by_cases he : k1 = k
    · subst he
      simp [getField]
    · rw [show getField ((k1, v1) :: rest) k = getField rest k by
        simp [getField, he], ih]
      simp [Ne.symm he]

theorem getField_assignObj_of_absent (o src : Obj) (k : String)
    (h : getField src k = none) :
    getField (assignObj o src) k = getField o k := by
  induction src generalizing o with
  | nil => simp [assignObj]
  | cons kv rest ih =>
    obtain ⟨k1, v1⟩ := kv
    have h1 : k1 ≠ k := by
      intro he
      simp [getField, he] at h
    have h2 : getField rest k = none := by
      simpa [getField, h1] using h
    rw [assignObj_cons, ih _ h2]
    exact getField_setField_ne o k1 v1 k (Ne.symm h1)

theorem getField_assignObj_of_present (o src : Obj) (k v : String)
    (hwf : ObjWF src) (h : getField src k = some v) :
    getField (assignObj o src) k = some v := by
  induction src generalizing o with
  | nil => simp [getField] at h
  | cons kv rest ih =>
    obtain ⟨k1, v1⟩ := kv
    rw [ObjWF, List.map_cons, List.nodup_cons] at hwf
    by_cases he : k1 = k
    · subst he
      have hv : v1 = v := by simpa [getField] using h
      have hnone : getField rest k1 = none :=
        (getField_eq_none_iff rest k1).mpr hwf.1
      rw [assignObj_cons, getField_assignObj_of_absent _ _ _ hnone]
      simpa [getField_setField_same] using congrArg some hv
    · have h2 : getField rest k = some v := by
        simpa [getField, he] using h
      rw [assignObj_cons]
      exact ih _ hwf.2 h2

theorem updateFirst_map_id (l : List Obj) (i : String) (body : Obj)
    (h : getField body "id" = none) :
    (updateFirst l i body).map (fun o => getField o "id")
      = l.map (fun o => getField o "id") := by
  induction l with
  | nil => rfl
  | cons o rest ih =>
    by_cases ho : hasId o i = true
    · simp [updateFirst, ho, getField_assignObj_of_absent _ _ _ h]
    · simp [updateFirst, ho, ih]

theorem findBook_filter_not (l : List Obj) (i : String) :
    findBook (l.filter (fun o => !(hasId o i))) i = none := by
  rw [findBook, List.find?_eq_none]
  intro o ho
  have := (List.mem_filter.mp ho).2
  simp at this
  simp [this]

theorem filter_not_eq_self_of_countId_zero (l : List Obj) (i : String)
    (h : countId l i = 0) : l.filter (fun o => !(hasId o i)) = l := by
  rw [List.filter_eq_self]
  intro o ho
  have hnil : l.filter (fun o => hasId o i) = [] :=
    List.length_eq_zero.mp h
  have := List.filter_eq_nil_iff.mp hnil o ho
  simp at this
  simp [this]

theorem countId_pos_of_ne_zero (l : List Obj) (i : String)
    (h : countId l i ≠ 0) : ∃ o ∈ l, hasId o i = true := by
  by_contra hall
  push_neg at hall
  apply h
  rw [countId, List.length_eq_zero, List.filter_eq_nil_iff]
  intro o ho
  simp [hall o ho]

theorem countId_le_one_of_nodup (l : List Obj) (i : String)
    (h : (l.map (fun o => getField o "id")).Nodup) : countId l i ≤ 1 := by
  induction l with
  | nil => simp [countId]
  | cons o rest ih =>
    rw [List.map_cons, List.nodup_cons] at h
    by_cases ho : hasId o i = true
    · have hid : getField o "id" = some i := by
        simpa [hasId] using ho
      have hzero : countId rest i = 0 := by
        by_contra hne
        obtain ⟨o', ho', hmatch⟩ := countId_pos_of_ne_zero rest i hne
        have hid' : getField o' "id" = some i := by
          simpa [hasId] using hmatch
        exact h.1 (hid ▸ hid' ▸
          List.mem_map_of_mem (fun o => getField o "id") ho')
      have : countId (o :: rest) i = 1 + countId rest i := by
        simp [countId, List.filter_cons, ho, Nat.add_comm]
      rw [this, hzero]
    · have : countId (o :: rest) i = countId rest i := by
        simp [countId, List.filter_cons, ho]
      rw [this]
      exact ih h.2

/-- Claim C1, counterexample: the claim says PUT never alters the stored
record's `id` even when the body contains an `id` field.  On the record
with id `"a"` and the body `(("id", "b"))`, the handler answers 200 and the
stored record's id becomes `"b"`, not the path id `"a"`: lodash `assign`
copies every body field, `id` included. -/
theorem C1_put_id_altered_cex :
    (putH ⟨[[("id", "a"), ("title", "T")]], [[("id", "a"), ("title", "T")]]⟩
        "a" [("id", "b")] true "e").1.status = 200 ∧
    ((putH ⟨[[("id", "a"), ("title", "T")]], [[("id", "a"), ("title", "T")]]⟩
        "a" [("id", "b")] true "e").2.mem.map (fun o => getField o "id")
      = [some "b"]) ∧
    ¬ ((putH ⟨[[("id", "a"), ("title", "T")]], [[("id", "a"), ("title", "T")]]⟩
        "a" [("id", "b")] true "e").2.mem.map (fun o => getField o "id")
      = [some "a"]) := by
  decide

/-- Claim C1 (amended): PUT on an existing record answers 200 and never
alters any stored record's `id`, provided the request body itself contains
no `id` field; the updated record's id still equals the path id. -/
theorem C1_put_preserves_id (s : DbState) (i : String) (body : Obj)
    (e : String) (hid : getField body "id" = none)
    (hfound : (findBook s.mem i).isSome) :
    (putH s i body true e).1.status = 200 ∧
    (putH s i body true e).2.mem.map (fun o => getField o "id")
      = s.mem.map (fun o => getField o "id") ∧
    (∀ b, findBook s.mem i = some b →
      getField (assignObj b body) "id" = some i) := by
  obtain ⟨b, hb⟩ := Option.isSome_iff_exists.mp hfound
  refine ⟨?_, ?_, ?_⟩
  · simp [putH, hb]
  · simp only [putH, hb]
    simpa using updateFirst_map_id s.mem i body hid
  · intro b' hb'
    have hmatch : hasId b' i = true :=
      List.find?_some (p := fun o => hasId o i) (by simpa [findBook] using hb')
    have : getField b' "id" = some i := by simpa [hasId] using hmatch
    rw [getField_assignObj_of_absent b' body "id" hid, this]

/-- Claim C1 witness: the amended theorem applied to the record with id
`"x1"` and a body without an `id` field. -/
theorem C1_put_preserves_id_witness :
    (putH ⟨[[("id", "x1"), ("title", "T")]], []⟩ "x1" [("title", "U")]
        true "e").1.status = 200 ∧
    (putH ⟨[[("id", "x1"), ("title", "T")]], []⟩ "x1" [("title", "U")]
        true "e").2.mem.map (fun o => getField o "id")
      = [[("id", "x1"), ("title", "T")]].map (fun o => getField o "id") ∧
    (∀ b, findBook [[("id", "x1"), ("title", "T")]] "x1" = some b →
      getField (assignObj b [("title", "U")]) "id" = some "x1") :=
  C1_put_preserves_id ⟨[[("id", "x1"), ("title", "T")]], []⟩ "x1"
    [("title", "U")] "e" (by decide) (by decide)

/-- Claim C3: PUT on an existing record performs a shallow merge — it
answers 200 with the merged record; every field present in the body
overwrites the stored record's field, and every field absent from the body
is left untouched. -/
theorem C3_put_shallow_merge (s : DbState) (i : String) (body b : Obj)
    (e : String) (hwf : ObjWF body) (hfind : findBook s.mem i = some b) :
    (putH s i body true e).1.status = 200 ∧
    (putH s i body true e).1.body = RBody.obj (assignObj b body) ∧
    (∀ k v, getField body k = some v →
      getField (assignObj b body) k = some v) ∧
    (∀ k, getField body k = none →
      getField (assignObj b body) k = getField b k) := by
  refine ⟨?_, ?_, ?_, ?_⟩
  · simp [putH, hfind]
  · simp [putH, hfind]
  · intro k v h
    exact getField_assignObj_of_present b body k v hwf h
  · intro k h
    exact getField_assignObj_of_absent b body k h

/-- Claim C3 witness: the merge theorem on the record
`(id i1, title T, author A)` with body `(author X)` — only `author`
changes, `title` and `id` stay. -/
theorem C3_put_shallow_merge_witness :
    (putH ⟨[[("id", "i1"), ("title", "T"), ("author", "A")]], []⟩ "i1"
        [("author", "X")] true "e").1.status = 200 ∧
    (putH ⟨[[("id", "i1"), ("title", "T"), ("author", "A")]], []⟩ "i1"
        [("author", "X")] true "e").1.body
      = RBody.obj (assignObj [("id", "i1"), ("title", "T"), ("author", "A")]
          [("author", "X")]) ∧
    (∀ k v, getField [("author", "X")] k = some v →
      getField (assignObj [("id", "i1"), ("title", "T"), ("author", "A")]
        [("author", "X")]) k = some v) ∧
    (∀ k, getField [("author", "X")] k = none →
      getField (assignObj [("id", "i1"), ("title", "T"), ("author", "A")]
        [("author", "X")]) k
      = getField [("id", "i1"), ("title", "T"), ("author", "A")] k) :=
  C3_put_shallow_merge ⟨[[("id", "i1"), ("title", "T"), ("author", "A")]], []⟩
    "i1" [("author", "X")] [("id", "i1"), ("title", "T"), ("author", "A")]
    "e" (by decide) (by decide)

/-- Claim C4: GET by id answers 200 with the matching record exactly when
some record has the path id, answers 404 exactly when none does, and never
changes the state. -/
theorem C4_get_by_id_spec (s : DbState) (i : String) :
    (getByIdH s i).2 = s ∧
    ((getByIdH s i).1.status = 200 ↔ (findBook s.mem i).isSome) ∧
    ((getByIdH s i).1.status = 404 ↔ findBook s.mem i = none) ∧
    (∀ b, findBook s.mem i = some b →
      (getByIdH s i).1.body = RBody.obj b) := by
  cases hb : findBook s.mem i <;> simp [getByIdH, hb]

/-- Claim C4 witness: the GET specification applied to a one-record state,
at the present id. -/
theorem C4_get_by_id_spec_witness :
    (getByIdH ⟨[[("id", "a"), ("title", "T")]], []⟩ "a").2
      = ⟨[[("id", "a"), ("title", "T")]], []⟩ ∧
    ((getByIdH ⟨[[("id", "a"), ("title", "T")]], []⟩ "a").1.status = 200 ↔
      (findBook [[("id", "a"), ("title", "T")]] "a").isSome) ∧
    ((getByIdH ⟨[[("id", "a"), ("title", "T")]], []⟩ "a").1.status = 404 ↔
      findBook [[("id", "a"), ("title", "T")]] "a" = none) ∧
    (∀ b, findBook [[("id", "a"), ("title", "T")]] "a" = some b →
      (getByIdH ⟨[[("id", "a"), ("title", "T")]], []⟩ "a").1.body
        = RBody.obj b) :=
  C4_get_by_id_spec ⟨[[("id", "a"), ("title", "T")]], []⟩ "a"

theorem deleteH_eq (s : DbState) (i : String) :
    deleteH s i = if countId s.mem i = 0
      then ⟨⟨404, .empty⟩, ⟨s.mem.filter (fun o => !(hasId o i)),
        s.mem.filter (fun o => !(hasId o i))⟩, countId s.mem i⟩
      else ⟨⟨200, .empty⟩, ⟨s.mem.filter (fun o => !(hasId o i)),
        s.mem.filter (fun o => !(hasId o i))⟩, countId s.mem i⟩ := rfl

/-- Claim C2, counterexample: the claim asserts that the created id is
unique across the collection for every POST without a body id, but the
handler never checks the generated id against the existing ones.  When the
generator returns `"abcde"` (a legitimate five-character output) while a
record with id `"abcde"` already exists, the response is still 201 and the
collection afterwards holds two records with that id. -/
theorem C2_post_unique_cex :
    (postH ⟨[[("id", "abcde")]], [[("id", "abcde")]]⟩ "abcde"
        [("title", "T")] true "e").1.status = 201 ∧
    countId (postH ⟨[[("id", "abcde")]], [[("id", "abcde")]]⟩ "abcde"
        [("title", "T")] true "e").2.mem "abcde" = 2 := by
  decide

/-- Claim C2 (amended): POST with a body that has no `id` field answers 201
with the record `mkBook gen body`; its id is the generated string (hence of
length `idLength = 5` and non-empty), all body fields are merged in
unchanged, the record is appended, and the id is unique across the new
collection provided the generated string differs from every existing id. -/
theorem C2_post_creates (s : DbState) (gen : String) (body : Obj)
    (e : String) (hlen : gen.length = idLength) (hwf : ObjWF body)
    (hid : getField body "id" = none)
    (hfresh : ∀ o ∈ s.mem, hasId o gen = false) :
    (postH s gen body true e).1.status = 201 ∧
    (postH s gen body true e).1.body = RBody.obj (mkBook gen body) ∧
    getField (mkBook gen body) "id" = some gen ∧
    gen ≠ "" ∧ gen.length = 5 ∧
    (∀ k v, getField body k = some v →
      getField (mkBook gen body) k = some v) ∧
    (postH s gen body true e).2.mem = s.mem ++ [mkBook gen body] ∧
    countId (postH s gen body true e).2.mem gen = 1 := by
  have hbid : getField (mkBook gen body) "id" = some gen := by
    rw [mkBook, getField_assignObj_of_absent _ _ _ hid]
    simp [getField]
  have hb : hasId (mkBook gen body) gen = true := by
    simp [hasId, hbid]
  have hnil : s.mem.filter (fun o => hasId o gen) = [] := by
    rw [List.filter_eq_nil_iff]
    intro o ho
    simp [hfresh o ho]
  refine ⟨by simp [postH], by simp [postH], hbid, ?_, ?_, ?_,
    by simp [postH], ?_⟩
  · intro hg
    rw [hg] at hlen
    simp [idLength] at hlen
  · simpa [idLength] using hlen
  · intro k v h
    exact getField_assignObj_of_present _ body k v hwf h
  · simp [postH, countId, List.filter_append, hnil, hb]

/-- Claim C2 witness: the amended theorem at a one-record state and the
fresh generated id `"bcdef"`. -/
theorem C2_post_creates_witness :
    (postH ⟨[[("id", "aaaaa"), ("title", "Old")]], []⟩ "bcdef"
        [("title", "Dune"), ("author", "Herbert")] true "e").1.status = 201 ∧
    (postH ⟨[[("id", "aaaaa"), ("title", "Old")]], []⟩ "bcdef"
        [("title", "Dune"), ("author", "Herbert")] true "e").1.body
      = RBody.obj (mkBook "bcdef" [("title", "Dune"), ("author", "Herbert")]) ∧
    getField (mkBook "bcdef" [("title", "Dune"), ("author", "Herbert")]) "id"
      = some "bcdef" ∧
    "bcdef" ≠ "" ∧ ("bcdef" : String).length = 5 ∧
    (∀ k v, getField [("title", "Dune"), ("author", "Herbert")] k = some v →
      getField (mkBook "bcdef" [("title", "Dune"), ("author", "Herbert")]) k
        = some v) ∧
    (postH ⟨[[("id", "aaaaa"), ("title", "Old")]], []⟩ "bcdef"
        [("title", "Dune"), ("author", "Herbert")] true "e").2.mem
      = [[("id", "aaaaa"), ("title", "Old")]]
          ++ [mkBook "bcdef" [("title", "Dune"), ("author", "Herbert")]] ∧
    countId (postH ⟨[[("id", "aaaaa"), ("title", "Old")]], []⟩ "bcdef"
        [("title", "Dune"), ("author", "Herbert")] true "e").2.mem "bcdef"
      = 1 :=
  C2_post_creates ⟨[[("id", "aaaaa"), ("title", "Old")]], []⟩ "bcdef"
    [("title", "Dune"), ("author", "Herbert")] "e" (by decide) (by decide)
    (by decide) (by decide)

/-- Claim C5, counterexample: the claim asserts the remove operation always
reports 0 or 1 removed records, but lodash `remove` deletes every matching
record: on a collection holding two records with id `"a"`, DELETE reports 2
removed and still answers a single 200. -/
theorem C5_delete_count_cex :
    (deleteH ⟨[[("id", "a")], [("id", "a")]], []⟩ "a").removedCount = 2 ∧
    (deleteH ⟨[[("id", "a")], [("id", "a")]], []⟩ "a").resp.status = 200 := by
  decide

/-- Claim C5 (amended): DELETE answers 404 exactly when no record has the
path id (and then leaves the collection's records unchanged) and 200 with
no JSON body otherwise; the remove operation signals the number of removed
records, which equals the number of matching records — 0 or 1 whenever the
stored ids are pairwise distinct. -/
theorem C5_delete_spec (s : DbState) (i : String) :
    ((deleteH s i).resp.status = 404 ↔ countId s.mem i = 0) ∧
    ((deleteH s i).resp.status = 404 → (deleteH s i).state.mem = s.mem) ∧
    ((deleteH s i).resp.status = 200 ↔ countId s.mem i ≠ 0) ∧
    (deleteH s i).resp.body = RBody.empty ∧
    (deleteH s i).removedCount = countId s.mem i ∧
    ((s.mem.map (fun o => getField o "id")).Nodup →
      (deleteH s i).removedCount ≤ 1) := by
  rw [deleteH_eq]
  by_cases hc : countId s.mem i = 0
  · refine ⟨by simp [hc], ?_, by simp [hc], by simp [hc], by simp [hc], ?_⟩
    · intro _
      simpa [hc] using filter_not_eq_self_of_countId_zero s.mem i hc
    · intro _
      simp [hc]
  · refine ⟨by simp [hc], by simp [hc], by simp [hc], by simp [hc],
      by simp [hc], ?_⟩
    intro hnd
    simpa [hc] using countId_le_one_of_nodup s.mem i hnd

/-- Claim C5 witness: the delete specification on a two-record state with
distinct ids, at one of the present ids. -/
theorem C5_delete_spec_witness :
    ((deleteH ⟨[[("id", "a")], [("id", "b")]], []⟩ "a").resp.status = 404 ↔
      countId [[("id", "a")], [("id", "b")]] "a" = 0) ∧
    ((deleteH ⟨[[("id", "a")], [("id", "b")]], []⟩ "a").resp.status = 404 →
      (deleteH ⟨[[("id", "a")], [("id", "b")]], []⟩ "a").state.mem
        = [[("id", "a")], [("id", "b")]]) ∧
    ((deleteH ⟨[[("id", "a")], [("id", "b")]], []⟩ "a").resp.status = 200 ↔
      countId [[("id", "a")], [("id", "b")]] "a" ≠ 0) ∧
    (deleteH ⟨[[("id", "a")], [("id", "b")]], []⟩ "a").resp.body
      = RBody.empty ∧
    (deleteH ⟨[[("id", "a")], [("id", "b")]], []⟩ "a").removedCount
      = countId [[("id", "a")], [("id", "b")]] "a" ∧
    (([[("id", "a")], [("id", "b")]].map
        (fun o => getField o "id")).Nodup →
      (deleteH ⟨[[("id", "a")], [("id", "b")]], []⟩ "a").removedCount ≤ 1) :=
  C5_delete_spec ⟨[[("id", "a")], [("id", "b")]], []⟩ "a"

/-- Claim C6: POST appends exactly one new record — the body merged over
the generated id — at the end of the collection, leaving every prior record
in place and in order, and an immediate GET of the whole collection returns
exactly the prior list with that record appended. -/
theorem C6_post_appends (s : DbState) (gen : String) (body : Obj)
    (e : String) :
    (postH s gen body true e).1.status = 201 ∧
    (postH s gen body true e).1.body = RBody.obj (mkBook gen body) ∧
    (postH s gen body true e).2.mem = s.mem ++ [mkBook gen body] ∧
    (getAllH (postH s gen body true e).2).1.status = 200 ∧
    (getAllH (postH s gen body true e).2).1.body
      = RBody.arr (s.mem ++ [mkBook gen body]) := by
  simp [postH, getAllH]

/-- Claim C7: after a successful DELETE of id `i`, an immediate GET of `i`
answers 404 — every matching record was removed, so none remains findable. -/
theorem C7_delete_then_get_404 (s : DbState) (i : String)
    (h : (deleteH s i).resp.status = 200) :
    (getByIdH (deleteH s i).state i).1.status = 404 := by
  have hmem : (deleteH s i).state.mem
      = s.mem.filter (fun o => !(hasId o i)) := by
    rw [deleteH_eq]
    by_cases hc : countId s.mem i = 0 <;> simp [hc]
  have hnone : findBook (deleteH s i).state.mem i = none := by
    rw [hmem]
    exact findBook_filter_not s.mem i
  simp [getByIdH, hnone]

/-- Claim C7 witness: deleting the only record with id `"a"` and then
fetching `"a"` yields 404. -/
theorem C7_delete_then_get_404_witness :
    (getByIdH (deleteH ⟨[[("id", "a"), ("title", "T")]], []⟩ "a").state
      "a").1.status = 404 :=
  C7_delete_then_get_404 ⟨[[("id", "a"), ("title", "T")]], []⟩ "a" (by decide)

/-- Claim C8: when the file write fails during POST, or during PUT on an
existing record, the catch block answers 500 carrying the error detail in
the body, and the persisted file keeps exactly its prior contents. -/
theorem C8_write_failure_500 (s : DbState) (gen : String) (body : Obj)
    (i : String) (e : String) :
    ((postH s gen body false e).1.status = 500 ∧
     (postH s gen body false e).1.body = RBody.err e ∧
     (postH s gen body false e).2.file = s.file) ∧
    ((findBook s.mem i).isSome →
      (putH s i body false e).1.status = 500 ∧
      (putH s i body false e).1.body = RBody.err e ∧
      (putH s i body false e).2.file = s.file) := by
  refine ⟨⟨by simp [postH], by simp [postH], by simp [postH]⟩, ?_⟩
  intro hf
  obtain ⟨b, hb⟩ := Option.isSome_iff_exists.mp hf
  exact ⟨by simp [putH, hb], by simp [putH, hb], by simp [putH, hb]⟩

/-- Claim C8 witness: a failing write on a concrete one-record state, for
both POST and PUT on the existing id. -/
theorem C8_write_failure_500_witness :
    ((postH ⟨[[("id", "a")]], [[("id", "a")]]⟩ "zzzzz" [("title", "T")]
        false "boom").1.status = 500 ∧
     (postH ⟨[[("id", "a")]], [[("id", "a")]]⟩ "zzzzz" [("title", "T")]
        false "boom").1.body = RBody.err "boom" ∧
     (postH ⟨[[("id", "a")]], [[("id", "a")]]⟩ "zzzzz" [("title", "T")]
        false "boom").2.file = [[("id", "a")]]) ∧
    ((findBook [[("id", "a")]] "a").isSome →
      (putH ⟨[[("id", "a")]], [[("id", "a")]]⟩ "a" [("title", "T")]
        false "boom").1.status = 500 ∧
      (putH ⟨[[("id", "a")]], [[("id", "a")]]⟩ "a" [("title", "T")]
        false "boom").1.body = RBody.err "boom" ∧
      (putH ⟨[[("id", "a")]], [[("id", "a")]]⟩ "a" [("title", "T")]
        false "boom").2.file = [[("id", "a")]]) :=
  C8_write_failure_500 ⟨[[("id", "a")]], [[("id", "a")]]⟩ "zzzzz"
    [("title", "T")] "a" "boom"

/-- Claim C9: when the POST body contains an `id` field, the spread after
the generated id lets the body's value win: the created record's id equals
the client-supplied value, whatever the generator produced, and the record
is appended as usual. -/
theorem C9_post_body_id_overrides (s : DbState) (gen : String) (body : Obj)
    (v : String) (e : String) (hwf : ObjWF body)
    (hid : getField body "id" = some v) :
    (postH s gen body true e).1.status = 201 ∧
    getField (mkBook gen body) "id" = some v ∧
    (postH s gen body true e).1.body = RBody.obj (mkBook gen body) ∧
    (postH s gen body true e).2.mem = s.mem ++ [mkBook gen body] := by
  refine ⟨by simp [postH], ?_, by simp [postH], by simp [postH]⟩
  exact getField_assignObj_of_present _ body "id" v hwf hid

/-- Claim C9 witness: a POST whose body carries `id` equal to the empty
string — the stored id is `""`, not the generated `"ggggg"`, so it is
neither 5 characters long nor non-empty. -/
theorem C9_post_body_id_overrides_witness :
    (postH ⟨[], []⟩ "ggggg" [("id", ""), ("title", "T")] true
        "e").1.status = 201 ∧
    getField (mkBook "ggggg" [("id", ""), ("title", "T")]) "id" = some "" ∧
    (postH ⟨[], []⟩ "ggggg" [("id", ""), ("title", "T")] true "e").1.body
      = RBody.obj (mkBook "ggggg" [("id", ""), ("title", "T")]) ∧
    (postH ⟨[], []⟩ "ggggg" [("id", ""), ("title", "T")] true "e").2.mem
      = [] ++ [mkBook "ggggg" [("id", ""), ("title", "T")]] :=
  C9_post_body_id_overrides ⟨[], []⟩ "ggggg" [("id", ""), ("title", "T")]
    "" "e" (by decide) (by decide)

/-- Claim C10: DELETE removes every record whose id matches the path id in
a single call — the remaining collection is the filter of the non-matching
records, the reported count is the full number of matching records, no
matching record survives, and the response is a single 404 or 200 according
to whether that count is zero. -/
theorem C10_delete_removes_all (s : DbState) (i : String) :
    (deleteH s i).state.mem = s.mem.filter (fun o => !(hasId o i)) ∧
    (deleteH s i).state.file = (deleteH s i).state.mem ∧
    (deleteH s i).removedCount = countId s.mem i ∧
    (deleteH s i).resp.status
      = (if countId s.mem i = 0 then 404 else 200) ∧
    (∀ o ∈ (deleteH s i).state.mem, hasId o i = false) := by
  rw [deleteH_eq]
  by_cases hc : countId s.mem i = 0 <;> simp [hc]

/-- Claim C10 witness: deleting id `"a"` from a collection holding two
records with id `"a"` and one with id `"b"` removes both matches at once. -/
theorem C10_delete_removes_all_witness :
    (deleteH ⟨[[("id", "a")], [("id", "b")], [("id", "a")]], []⟩
        "a").state.mem
      = [[("id", "a")], [("id", "b")], [("id", "a")]].filter
          (fun o => !(hasId o "a")) ∧
    (deleteH ⟨[[("id", "a")], [("id", "b")], [("id", "a")]], []⟩
        "a").state.file
      = (deleteH ⟨[[("id", "a")], [("id", "b")], [("id", "a")]], []⟩
        "a").state.mem ∧
    (deleteH ⟨[[("id", "a")], [("id", "b")], [("id", "a")]], []⟩
        "a").removedCount
      = countId [[("id", "a")], [("id", "b")], [("id", "a")]] "a" ∧
    (deleteH ⟨[[("id", "a")], [("id", "b")], [("id", "a")]], []⟩
        "a").resp.status
      = (if countId [[("id", "a")], [("id", "b")], [("id", "a")]] "a" = 0
          then 404 else 200) ∧
    (∀ o ∈ (deleteH ⟨[[("id", "a")], [("id", "b")], [("id", "a")]], []⟩
        "a").state.mem, hasId o "a" = false) :=
  C10_delete_removes_all ⟨[[("id", "a")], [("id", "b")], [("id", "a")]], []⟩
    "a"

end BookAPI
